import Mathlib

/-!
Shallow embedding of the servo-control core of the C_ALL repository.

Two Python scripts hold the core:
* `Raspberrypi_Code/message 2.py` — angle tracker (`control_servo`) plus
  actuator (`rotate_servo(relative_degrees, pulse_width)`) with calibration
  constant `TIME_PER_60_DEG = 0.124`, and the BLE dispatcher
  (`NumberReceiverService._set_number`).
* `C_All_Test/raspberry_bt_receiver.py` — a variant whose `rotate_servo(degrees)`
  chooses the pulse width itself, with `TIME_PER_60_DEG = 0.119`.

Modelling choices:
* Python `int` is `ℤ`; Python `float` arithmetic on the calibration constants is
  embedded as exact rational arithmetic over `ℚ`.
* The side effects of a call (`pi.set_servo_pulsewidth`, `time.sleep`, the
  commit `current_angle = target_angle`) are recorded as an ordered trace of
  `Event`s, so sequencing facts ("neutral pulse is last", "commit happens after
  motion") are statements about the produced trace.
* Byte payloads are `List Nat` (each byte `< 256` where relevant).
-/

/-- One observable effect of the servo scripts: a `pi.set_servo_pulsewidth`
call, a `time.sleep` call, or the assignment `current_angle = target_angle`. -/
inductive Event where
  | setServoPulsewidth (pin : Nat) (pulse : Nat)
  | sleep (seconds : ℚ)
  | commitAngle (angle : Int)
deriving DecidableEq, Repr

/-- The sleep durations occurring in a trace, in order. -/
def sleeps (tr : List Event) : List ℚ :=
  tr.filterMap fun e =>
    match e with
    | .sleep s => some s
    | _ => none

/-- The angle commits occurring in a trace, in order. -/
def commits (tr : List Event) : List Int :=
  tr.filterMap fun e =>
    match e with
    | .commitAngle a => some a
    | _ => none

namespace Message2

/-- `SERVO_PIN = 17` from message 2.py. -/
def SERVO_PIN : Nat := 17

/-- `SERVO_MIN_PULSE = 1000` (microseconds). -/
def SERVO_MIN_PULSE : Nat := 1000

/-- `SERVO_MAX_PULSE = 2000` (microseconds). -/
def SERVO_MAX_PULSE : Nat := 2000

/-- `STOP_PULSE = 1500` (neutral pulse width). -/
def STOP_PULSE : Nat := 1500

/-- `TIME_PER_60_DEG = 0.124` (seconds per 60 degrees), embedded exactly. -/
def TIME_PER_60_DEG : ℚ := 124 / 1000

/-- `time_needed = abs(relative_degrees) * (TIME_PER_60_DEG / 60)` from
`rotate_servo` in message 2.py. -/
def time_needed (relative_degrees : Int) : ℚ :=
  ((|relative_degrees| : Int) : ℚ) * (TIME_PER_60_DEG / 60)

/-- `rotate_servo(relative_degrees, pulse_width)` from message 2.py, as the
trace of pulse-width and sleep calls it performs.  On a zero delta it issues
the stop pulse immediately and returns; otherwise it sets the given pulse
width, sleeps for `time_needed`, and sets the stop pulse. -/
def rotate_servo (relative_degrees : Int) (pulse_width : Nat) : List Event :=
  if relative_degrees = 0 then
    [Event.setServoPulsewidth SERVO_PIN STOP_PULSE]
  else
    [Event.setServoPulsewidth SERVO_PIN pulse_width,
     Event.sleep (time_needed relative_degrees),
     Event.setServoPulsewidth SERVO_PIN STOP_PULSE]

/-- The `difference_angle` computed by `control_servo` in message 2.py:
`difference_angle = target_angle - current_angle`, then if
`abs(difference_angle) > 180` the complement is taken
(`-(360 - difference_angle)` when positive, `360 + difference_angle` when
negative). -/
def control_servo_delta (current_angle target_angle : Int) : Int :=
  let difference_angle := target_angle - current_angle
  if |difference_angle| > 180 then
    if difference_angle > 0 then -(360 - difference_angle)
    else 360 + difference_angle
  else difference_angle

/-- `direction = 1 if difference_angle > 0 else -1` from `control_servo`. -/
def control_servo_direction (current_angle target_angle : Int) : Int :=
  if control_servo_delta current_angle target_angle > 0 then 1 else -1

/-- `pulse_width = SERVO_MAX_PULSE if direction == 1 else SERVO_MIN_PULSE`
from `control_servo`. -/
def control_servo_pulse_width (current_angle target_angle : Int) : Nat :=
  if control_servo_direction current_angle target_angle = 1 then SERVO_MAX_PULSE
  else SERVO_MIN_PULSE

/-- `control_servo(target_angle)` from message 2.py: computes the wrapped
difference angle, picks the pulse width from the direction, calls
`rotate_servo`, and finally commits `current_angle = target_angle`.  The
result is the event trace paired with the new value of the global
`current_angle`. -/
def control_servo (current_angle target_angle : Int) : List Event × Int :=
  let difference_angle := control_servo_delta current_angle target_angle
  let pulse_width := control_servo_pulse_width current_angle target_angle
  (rotate_servo difference_angle pulse_width ++ [Event.commitAngle target_angle],
   target_angle)

/-- Initial value of the module-global `current_angle = 0` in message 2.py. -/
def initial_current_angle : Int := 0

end Message2

namespace Receiver

/-- `SERVO_PIN = 17` from raspberry_bt_receiver.py. -/
def SERVO_PIN : Nat := 17

/-- `SERVO_MIN_PULSE = 1000`. -/
def SERVO_MIN_PULSE : Nat := 1000

/-- `SERVO_MAX_PULSE = 2000`. -/
def SERVO_MAX_PULSE : Nat := 2000

/-- `STOP_PULSE = 1500`. -/
def STOP_PULSE : Nat := 1500

/-- `TIME_PER_60_DEG = 0.119` in this variant, embedded exactly. -/
def TIME_PER_60_DEG : ℚ := 119 / 1000

/-- `time_needed = abs(degrees) * (TIME_PER_60_DEG / 60)` from
`rotate_servo` in raspberry_bt_receiver.py. -/
def time_needed (degrees : Int) : ℚ :=
  ((|degrees| : Int) : ℚ) * (TIME_PER_60_DEG / 60)

/-- `rotate_servo(degrees)` from raspberry_bt_receiver.py: this variant picks
the pulse width itself (`direction = 1 if degrees > 0 else -1`, max pulse for
clockwise, min pulse otherwise), then performs the same stop / drive-sleep-stop
sequence. -/
def rotate_servo (degrees : Int) : List Event :=
  if degrees = 0 then
    [Event.setServoPulsewidth SERVO_PIN STOP_PULSE]
  else
    let direction : Int := if degrees > 0 then 1 else -1
    let pulse_width := if direction = 1 then SERVO_MAX_PULSE else SERVO_MIN_PULSE
    [Event.setServoPulsewidth SERVO_PIN pulse_width,
     Event.sleep (time_needed degrees),
     Event.setServoPulsewidth SERVO_PIN STOP_PULSE]

end Receiver

/-! Dispatcher model for message 2.py (`NumberReceiverService`). -/

/-- Is `b` a UTF-8 continuation byte (`0x80..0xBF`)? -/
def utf8Cont (b : Nat) : Bool := 0x80 ≤ b && b ≤ 0xBF

/-- One step of strict UTF-8 decoding as performed by Python
`bytes.decode('utf-8')`: decode the leading scalar value from the byte list,
returning it with the remaining bytes, or `none` on malformed input
(bad lead byte, truncated or invalid continuation, overlong forms,
surrogates, values above U+10FFFF). -/
def utf8DecodeStep (bs : List Nat) : Option (Nat × List Nat) :=
  match bs with
  | [] => none
  | b :: rest =>
    if b ≤ 0x7F then some (b, rest)
    else if 0xC2 ≤ b && b ≤ 0xDF then
      match rest with
      | c1 :: rest1 =>
        if utf8Cont c1 then some ((b - 0xC0) * 64 + (c1 - 0x80), rest1) else none
      | _ => none
    else if 0xE0 ≤ b && b ≤ 0xEF then
      match rest with
      | c1 :: c2 :: rest2 =>
        let lo1 := if b = 0xE0 then 0xA0 else 0x80
        let hi1 := if b = 0xED then 0x9F else 0xBF
        if (lo1 ≤ c1 && c1 ≤ hi1) && utf8Cont c2 then
          some ((b - 0xE0) * 4096 + (c1 - 0x80) * 64 + (c2 - 0x80), rest2)
        else none
      | _ => none
    else if 0xF0 ≤ b && b ≤ 0xF4 then
      match rest with
      | c1 :: c2 :: c3 :: rest3 =>
        let lo1 := if b = 0xF0 then 0x90 else 0x80
        let hi1 := if b = 0xF4 then 0x8F else 0xBF
        if (lo1 ≤ c1 && c1 ≤ hi1) && (utf8Cont c2 && utf8Cont c3) then
          some ((b - 0xF0) * 262144 + (c1 - 0x80) * 4096 + (c2 - 0x80) * 64
                + (c3 - 0x80), rest3)
        else none
      | _ => none
    else none

/-- Fueled driver for `utf8DecodeStep`; each step consumes at least one byte,
so fuel equal to the byte count always suffices. -/
def utf8DecodeAux : Nat → List Nat → Option (List Nat)
  | _, [] => some []
  | 0, _ :: _ => none
  | fuel + 1, bs =>
    match utf8DecodeStep bs with
    | none => none
    | some (cp, rest) => (utf8DecodeAux fuel rest).map (cp :: ·)

/-- `data.decode('utf-8')` from `_set_number`: strict UTF-8 decoding of a byte
payload to a list of Unicode scalar values, `none` when Python would raise
`UnicodeDecodeError`. -/
def utf8Decode (bs : List Nat) : Option (List Nat) :=
  utf8DecodeAux bs.length bs

/-- The Unicode codepoints Python's `str.strip()` removes (the codepoints for
which `str.isspace()` holds). -/
def pyIsSpace (c : Nat) : Bool :=
  (9 ≤ c && c ≤ 13) || (28 ≤ c && c ≤ 31) || c = 32 || c = 0x85 || c = 0xA0 ||
  c = 0x1680 || (0x2000 ≤ c && c ≤ 0x200A) || c = 0x2028 || c = 0x2029 ||
  c = 0x202F || c = 0x205F || c = 0x3000

/-- `str.strip()`: drop leading and trailing whitespace codepoints. -/
def pyStrip (cs : List Nat) : List Nat :=
  ((cs.dropWhile pyIsSpace).reverse.dropWhile pyIsSpace).reverse

/-- Is `c` the codepoint of an ASCII decimal digit? -/
def isAsciiDigit (c : Nat) : Bool := 48 ≤ c && c ≤ 57

/-- Continue parsing the digit part of a Python integer literal after at least
one digit has been read into `acc`: further digits extend the value, and a
single underscore is allowed only between two digits. -/
def pyDigitsAux : Nat → List Nat → Option Nat
  | acc, [] => some acc
  | acc, [c] => if isAsciiDigit c then some (acc * 10 + (c - 48)) else none
  | acc, c :: d :: cs =>
    if isAsciiDigit c then pyDigitsAux (acc * 10 + (c - 48)) (d :: cs)
    else if c = 95 then
      if isAsciiDigit d then pyDigitsAux (acc * 10 + (d - 48)) cs else none
    else none

/-- The digit part of a Python integer literal: at least one digit, then
`pyDigitsAux`. -/
def pyDigitsStart : List Nat → Option Nat
  | [] => none
  | c :: cs => if isAsciiDigit c then pyDigitsAux (c - 48) cs else none

/-- `int(number_str)` from `_set_number`: Python's string-to-int conversion
(the ASCII fragment — optional surrounding whitespace, an optional sign, then
decimal digits with single underscores allowed between digits), `none` when
Python would raise `ValueError`. -/
def pyInt (cs : List Nat) : Option Int :=
  match pyStrip cs with
  | [] => none
  | c :: rest =>
    if c = 43 then (pyDigitsStart rest).map (Int.ofNat ·)
    else if c = 45 then (pyDigitsStart rest).map (fun n => -(Int.ofNat n))
    else (pyDigitsStart (c :: rest)).map (Int.ofNat ·)

/-- The whole validation pipeline of `_set_number`:
`int(data.decode('utf-8').strip())`, with `none` for the paths on which Python
raises and the handler returns `False`. -/
def parsePayload (data : List Nat) : Option Int :=
  (utf8Decode data).bind fun s => pyInt (pyStrip s)

namespace Message2

/-- The mutable state touched by `NumberReceiverService` and `control_servo`:
the stored characteristic value `self._value` (raw bytes) and the module
global `current_angle`. -/
structure ServiceState where
  value : List Nat
  current_angle : Int
deriving DecidableEq, Repr

/-- State at process start: `self._value = bytearray()` and
`current_angle = 0`. -/
def initial_state : ServiceState := ⟨[], initial_current_angle⟩

/-- `number_characteristic` read behaviour: returns `self._value`. -/
def number_characteristic (st : ServiceState) : List Nat := st.value

/-- What `_set_number` returns: the stored value (read request),
`True` (accepted write) or `False` (validation failure). -/
inductive SetNumberResult where
  | value (v : List Nat)
  | success
  | failure
deriving DecidableEq, Repr

/-- One externally visible action of `_set_number`, in program order: logging
calls, the assignment `self._value = data`, and the
`loop.run_in_executor(None, control_servo, target_angle)` submission. -/
inductive DispatchAction where
  | logDebugRead
  | storeValue (data : List Nat)
  | logInfoReceived (target : Int)
  | logDebugRaw (data : List Nat)
  | submitRotation (target : Int)
  | logErrorInvalidFormat
deriving DecidableEq, Repr

/-- The rotation jobs submitted to the executor within an action trace. -/
def rotationSubmissions (acts : List DispatchAction) : List Int :=
  acts.filterMap fun a =>
    match a with
    | .submitRotation t => some t
    | _ => none

/-- `_set_number(data, opts)` from message 2.py.  `data = none` models a read
request (`data is None`).  Otherwise the payload is decoded, stripped and
parsed; on success the raw bytes are stored in `self._value` and a
`control_servo` job is submitted to the executor, returning `True`; on a
decode or parse failure the exception is caught, an error is logged, and
`False` is returned with no state change and no submission. -/
def set_number (st : ServiceState) (data : Option (List Nat)) :
    SetNumberResult × ServiceState × List DispatchAction :=
  match data with
  | none => (.value st.value, st, [.logDebugRead])
  | some d =>
    match utf8Decode d with
    | none => (.failure, st, [.logErrorInvalidFormat])
    | some s =>
      let number_str := pyStrip s
      match pyInt number_str with
      | none => (.failure, st, [.logErrorInvalidFormat])
      | some target_angle =>
        (.success, { st with value := d },
         [.storeValue d, .logInfoReceived target_angle, .logDebugRaw d,
          .submitRotation target_angle])

/-- Running one submitted executor job: `control_servo(target)` reads the
global `current_angle` from the state and commits the target back into it,
producing the actuator event trace. -/
def run_job (st : ServiceState) (target : Int) : List Event × ServiceState :=
  let r := control_servo st.current_angle target
  (r.1, { st with current_angle := r.2 })

end Message2

example : parsePayload [97, 98, 99] = none := by decide
example : parsePayload [32, 52, 50, 10] = some 42 := by decide
example : parsePayload [45, 49, 55, 48] = some (-170) := by decide
example : utf8Decode [0xC3, 0xA9] = some [0xE9] := by decide
example : utf8Decode [0xFF] = none := by decide
example : utf8Decode [0xC3] = none := by decide

example : Message2.control_servo_delta 20 30 = 10 := by decide
example : Message2.control_servo_delta (-170) 170 = -20 := by decide
example : Message2.control_servo_delta 170 (-170) = 20 := by decide
example : Message2.control_servo_delta 0 720 = 360 := by decide
example : Message2.control_servo_direction 0 180 = 1 := by decide
example : Message2.control_servo_direction 180 0 = -1 := by decide

/-! Claim theorems. -/

/-- C1: for current and target angles in the normalized circular domain
(integer degrees in (-180, 180]), the delta computed by `control_servo`
satisfies `|delta| ≤ 180`, and the max pulse width (clockwise) is selected
exactly when the delta is positive, the min pulse width (counterclockwise)
otherwise. -/
theorem C1_delta_bounded_and_direction (a b : Int)
    (ha1 : -180 < a) (ha2 : a ≤ 180) (hb1 : -180 < b) (hb2 : b ≤ 180) :
    |Message2.control_servo_delta a b| ≤ 180 ∧
    (Message2.control_servo_pulse_width a b = Message2.SERVO_MAX_PULSE ↔
      0 < Message2.control_servo_delta a b) ∧
    (Message2.control_servo_pulse_width a b = Message2.SERVO_MIN_PULSE ↔
      Message2.control_servo_delta a b ≤ 0) := by
  unfold Message2.control_servo_pulse_width Message2.control_servo_direction
    Message2.control_servo_delta Message2.SERVO_MAX_PULSE Message2.SERVO_MIN_PULSE
  simp only [gt_iff_lt, lt_abs, abs_le]
  split_ifs <;> try exact (False.elim (by assumption))
  all_goals omega

/-- Witness for C1 at current = 20, target = 30. -/
theorem C1_witness :
    (-180 < (20 : Int) ∧ (20 : Int) ≤ 180 ∧ -180 < (30 : Int) ∧ (30 : Int) ≤ 180) ∧
    (|Message2.control_servo_delta 20 30| ≤ 180 ∧
     (Message2.control_servo_pulse_width 20 30 = Message2.SERVO_MAX_PULSE ↔
       0 < Message2.control_servo_delta 20 30) ∧
     (Message2.control_servo_pulse_width 20 30 = Message2.SERVO_MIN_PULSE ↔
       Message2.control_servo_delta 20 30 ≤ 0)) :=
  ⟨by decide,
   C1_delta_bounded_and_direction 20 30 (by decide) (by decide) (by decide) (by decide)⟩

/-- C2: for every pair of integer angles, adding the computed delta to the
current angle is congruent to the target modulo 360; in particular the
current = -170, target = 170 case yields delta -20 (counterclockwise) and the
current = 170, target = -170 case yields delta 20 (clockwise). -/
theorem C2_mod360_shortest_path :
    (∀ a b : Int, (a + Message2.control_servo_delta a b) % 360 = b % 360) ∧
    Message2.control_servo_delta (-170) 170 = -20 ∧
    Message2.control_servo_direction (-170) 170 = -1 ∧
    Message2.control_servo_delta 170 (-170) = 20 ∧
    Message2.control_servo_direction 170 (-170) = 1 := by
  refine ⟨fun a b => ?_, by decide, by decide, by decide, by decide⟩
  unfold Message2.control_servo_delta
  simp only [gt_iff_lt, lt_abs]
  split_ifs <;> omega

/-- C9 counterexample: with current angle 0 and target 720 the computed delta
is 360, so its absolute value exceeds 180 — `control_servo` does not reduce
its inputs modulo 360 before the delta computation. -/
theorem C9_counterexample :
    Message2.control_servo_delta 0 720 = 360 ∧
    ¬ |Message2.control_servo_delta 0 720| ≤ 180 := by decide

/-- C9 amended: `control_servo` applies at most one ±360 correction instead
of a full modulo-360 reduction, so `|delta| ≤ 180` is only guaranteed when
the raw difference `target - current` lies within ±540. -/
theorem C9_amended_single_wrap (c t : Int) (h : |t - c| ≤ 540) :
    |Message2.control_servo_delta c t| ≤ 180 := by
  unfold Message2.control_servo_delta
  rw [abs_le] at h
  simp only [gt_iff_lt, lt_abs, abs_le]
  split_ifs <;> omega

/-- Witness for the amended C9 at current = 0, target = 300. -/
theorem C9_amended_witness :
    |(300 : Int) - 0| ≤ 540 ∧ |Message2.control_servo_delta 0 300| ≤ 180 :=
  ⟨by decide, C9_amended_single_wrap 0 300 (by decide)⟩

/-- C7 counterexample: the two exact-180° separations do not resolve to one
fixed tie-break direction — `control_servo` turns clockwise for
current = 0, target = 180 but counterclockwise for current = 180, target = 0. -/
theorem C7_counterexample :
    Message2.control_servo_direction 0 180 = 1 ∧
    Message2.control_servo_direction 180 0 = -1 ∧
    Message2.control_servo_direction 0 180 ≠ Message2.control_servo_direction 180 0 := by
  decide

/-- C7 amended: the delta is exactly antisymmetric
(`delta(a,b) = -delta(b,a)` for all integer angles), and an exact ±180
separation is resolved deterministically by the sign of `target - current`
(no wrap is applied, so the delta is `target - current` itself and the
direction is clockwise for +180, counterclockwise for -180) — a fixed rule,
but not a single fixed direction shared by both orientations of the tie. -/
theorem C7_amended_antisymmetry_tiebreak :
    (∀ a b : Int,
      Message2.control_servo_delta a b = -Message2.control_servo_delta b a) ∧
    (∀ a b : Int, |b - a| = 180 →
      Message2.control_servo_delta a b = b - a ∧
      Message2.control_servo_direction a b = (if 0 < b - a then 1 else -1)) := by
  constructor
  · intro a b
    unfold Message2.control_servo_delta
    simp only [gt_iff_lt, lt_abs]
    split_ifs <;> omega
  · intro a b h
    have h' : b - a = 180 ∨ b - a = -180 := by
      rcases abs_cases (b - a) with ⟨h1, _⟩ | ⟨h1, _⟩ <;> omega
    unfold Message2.control_servo_direction Message2.control_servo_delta
    simp only [gt_iff_lt, lt_abs]
    split_ifs <;> omega

/-- Witness for the amended C7 at the tie current = 0, target = 180. -/
theorem C7_amended_witness :
    |(180 : Int) - 0| = 180 ∧
    (Message2.control_servo_delta 0 180 = 180 - 0 ∧
     Message2.control_servo_direction 0 180 = (if 0 < (180:Int) - 0 then 1 else -1)) :=
  ⟨by decide, C7_amended_antisymmetry_tiebreak.2 0 180 (by decide)⟩

/-- C3: running a rotation job for target `t` from any tracked state ends
with the tracked current angle equal to exactly `t`, and the trace shows the
angle commit as its final event, after every motion event (no commit occurs
earlier in the trace). -/
theorem C3_commit_after_motion (st : Message2.ServiceState) (t : Int) :
    (Message2.run_job st t).2.current_angle = t ∧
    (Message2.run_job st t).1.getLast? = some (Event.commitAngle t) ∧
    commits (Message2.run_job st t).1.dropLast = [] := by
  refine ⟨rfl, ?_, ?_⟩ <;>
  · simp only [Message2.run_job, Message2.control_servo, Message2.rotate_servo]
    split_ifs <;> simp [commits]

/-- C4: both `rotate_servo` variants always finish with the neutral stop
pulse as the last commanded signal: a nonzero delta produces exactly the
sequence direction pulse, sleep for the computed duration, stop pulse (the
receiver variant picking max pulse for positive and min pulse for negative
deltas itself), while a zero delta produces the stop pulse alone with no
sleep. -/
theorem C4_neutral_stop_last (d : Int) (pw : Nat) :
    Message2.rotate_servo d pw =
      (if d = 0 then
        [Event.setServoPulsewidth Message2.SERVO_PIN Message2.STOP_PULSE]
       else
        [Event.setServoPulsewidth Message2.SERVO_PIN pw,
         Event.sleep (Message2.time_needed d),
         Event.setServoPulsewidth Message2.SERVO_PIN Message2.STOP_PULSE]) ∧
    (Message2.rotate_servo d pw).getLast? =
      some (Event.setServoPulsewidth Message2.SERVO_PIN Message2.STOP_PULSE) ∧
    sleeps (Message2.rotate_servo 0 pw) = [] ∧
    Receiver.rotate_servo d =
      (if d = 0 then
        [Event.setServoPulsewidth Receiver.SERVO_PIN Receiver.STOP_PULSE]
       else
        [Event.setServoPulsewidth Receiver.SERVO_PIN
           (if 0 < d then Receiver.SERVO_MAX_PULSE else Receiver.SERVO_MIN_PULSE),
         Event.sleep (Receiver.time_needed d),
         Event.setServoPulsewidth Receiver.SERVO_PIN Receiver.STOP_PULSE]) ∧
    (Receiver.rotate_servo d).getLast? =
      some (Event.setServoPulsewidth Receiver.SERVO_PIN Receiver.STOP_PULSE) ∧
    sleeps (Receiver.rotate_servo 0) = [] := by
  refine ⟨?_, ?_, ?_, ?_, ?_, ?_⟩ <;>
    simp only [Message2.rotate_servo, Receiver.rotate_servo, gt_iff_lt] <;>
    first
      | rfl
      | (split_ifs <;> simp_all [sleeps])

/-- C6: in both variants the rotation duration is
`|delta| * (TIME_PER_60_DEG / 60)` with the build-specific calibration
constant (0.124 s per 60° in message 2.py, 0.119 in raspberry_bt_receiver.py);
the duration at delta 0 is 0 and the zero-delta path performs no sleep at
all. -/
theorem C6_duration_linear :
    (∀ d : Int, Message2.time_needed d = |(d : ℚ)| * (124 / 1000 / 60)) ∧
    (∀ d : Int, Receiver.time_needed d = |(d : ℚ)| * (119 / 1000 / 60)) ∧
    Message2.time_needed 0 = 0 ∧
    Receiver.time_needed 0 = 0 ∧
    (∀ pw : Nat, sleeps (Message2.rotate_servo 0 pw) = []) ∧
    sleeps (Receiver.rotate_servo 0) = [] := by
  refine ⟨fun d => ?_, fun d => ?_, ?_, ?_, fun pw => ?_, ?_⟩
  · simp [Message2.time_needed, Message2.TIME_PER_60_DEG, Int.cast_abs]
  · simp [Receiver.time_needed, Receiver.TIME_PER_60_DEG, Int.cast_abs]
  · simp [Message2.time_needed]
  · simp [Receiver.time_needed]
  · simp [Message2.rotate_servo, sleeps]
  · simp [Receiver.rotate_servo, sleeps]

/-- C10: at process start the tracked current angle is 0, so the first
accepted command's rotation job runs `control_servo` with current angle 0
(the delta is computed relative to 0) and its completion sets the tracked
angle to that command's target. -/
theorem C10_initial_angle_zero :
    Message2.initial_state.current_angle = 0 ∧
    Message2.initial_current_angle = 0 ∧
    (∀ t : Int,
      (Message2.run_job Message2.initial_state t).1 =
        (Message2.control_servo 0 t).1 ∧
      (Message2.run_job Message2.initial_state t).2.current_angle = t) :=
  ⟨rfl, rfl, fun _ => ⟨rfl, rfl⟩⟩

/-- C5: when the inbound payload fails UTF-8 decoding or integer parsing,
`_set_number` returns failure, leaves the stored value and the tracked
current angle unchanged, submits no rotation job to the executor, a
subsequent read returns the prior raw bytes, and an error log action is
emitted instead of a protocol fault. -/
theorem C5_invalid_payload_no_effect (st : Message2.ServiceState)
    (d : List Nat) (h : parsePayload d = none) :
    (Message2.set_number st (some d)).1 = Message2.SetNumberResult.failure ∧
    (Message2.set_number st (some d)).2.1 = st ∧
    Message2.rotationSubmissions (Message2.set_number st (some d)).2.2 = [] ∧
    Message2.number_characteristic (Message2.set_number st (some d)).2.1 =
      Message2.number_characteristic st ∧
    Message2.DispatchAction.logErrorInvalidFormat ∈
      (Message2.set_number st (some d)).2.2 := by
  unfold parsePayload at h
  unfold Message2.set_number
  cases hd : utf8Decode d with
  | none =>
      simp [hd, Message2.rotationSubmissions, Message2.number_characteristic]
  | some s =>
      rw [hd] at h
      simp only [Option.some_bind] at h
      simp [hd, h, Message2.rotationSubmissions, Message2.number_characteristic]

/-- Witness for C5 at the malformed payload "abc" (bytes 97 98 99) against a
state storing the prior valid payload "5" (byte 53). -/
theorem C5_witness :
    parsePayload [97, 98, 99] = none ∧
    (Message2.set_number ⟨[53], 7⟩ (some [97, 98, 99])).1 =
      Message2.SetNumberResult.failure ∧
    (Message2.set_number ⟨[53], 7⟩ (some [97, 98, 99])).2.1 = ⟨[53], 7⟩ ∧
    Message2.rotationSubmissions
      (Message2.set_number ⟨[53], 7⟩ (some [97, 98, 99])).2.2 = [] :=
  ⟨by decide,
   (C5_invalid_payload_no_effect ⟨[53], 7⟩ [97, 98, 99] (by decide)).1,
   (C5_invalid_payload_no_effect ⟨[53], 7⟩ [97, 98, 99] (by decide)).2.1,
   (C5_invalid_payload_no_effect ⟨[53], 7⟩ [97, 98, 99] (by decide)).2.2.1⟩

/-- C8: on a successfully parsed write, `_set_number` stores the raw payload
bytes verbatim as the last value (action index 0) before submitting the
rotation job to the executor (action index 3), returns success, and a read
afterwards returns exactly those raw bytes, not a re-encoding of the parsed
integer. -/
theorem C8_store_before_submit (st : Message2.ServiceState)
    (d : List Nat) (t : Int) (h : parsePayload d = some t) :
    (Message2.set_number st (some d)).1 = Message2.SetNumberResult.success ∧
    (Message2.set_number st (some d)).2.1.value = d ∧
    Message2.number_characteristic (Message2.set_number st (some d)).2.1 = d ∧
    (Message2.set_number st (some d)).2.2 =
      [Message2.DispatchAction.storeValue d,
       Message2.DispatchAction.logInfoReceived t,
       Message2.DispatchAction.logDebugRaw d,
       Message2.DispatchAction.submitRotation t] ∧
    (Message2.set_number st (some d)).2.2.get? 0 =
      some (Message2.DispatchAction.storeValue d) ∧
    (Message2.set_number st (some d)).2.2.get? 3 =
      some (Message2.DispatchAction.submitRotation t) ∧
    Message2.rotationSubmissions (Message2.set_number st (some d)).2.2 = [t] := by
  unfold parsePayload at h
  unfold Message2.set_number
  cases hd : utf8Decode d with
  | none =>
      rw [hd] at h
      simp at h
  | some s =>
      rw [hd] at h
      simp only [Option.some_bind] at h
      simp [hd, h, Message2.rotationSubmissions, Message2.number_characteristic]

/-- Witness for C8 at the payload " 42\n" (bytes 32 52 50 10), whose stored
raw value keeps its surrounding whitespace although it parses to 42. -/
theorem C8_witness :
    parsePayload [32, 52, 50, 10] = some 42 ∧
    (Message2.set_number ⟨[], 0⟩ (some [32, 52, 50, 10])).1 =
      Message2.SetNumberResult.success ∧
    Message2.number_characteristic
      (Message2.set_number ⟨[], 0⟩ (some [32, 52, 50, 10])).2.1 =
      [32, 52, 50, 10] ∧
    (Message2.set_number ⟨[], 0⟩ (some [32, 52, 50, 10])).2.2.get? 0 =
      some (Message2.DispatchAction.storeValue [32, 52, 50, 10]) ∧
    (Message2.set_number ⟨[], 0⟩ (some [32, 52, 50, 10])).2.2.get? 3 =
      some (Message2.DispatchAction.submitRotation 42) :=
  ⟨by decide,
   (C8_store_before_submit ⟨[], 0⟩ [32, 52, 50, 10] 42 (by decide)).1,
   (C8_store_before_submit ⟨[], 0⟩ [32, 52, 50, 10] 42 (by decide)).2.2.1,
   (C8_store_before_submit ⟨[], 0⟩ [32, 52, 50, 10] 42 (by decide)).2.2.2.2.1,
   (C8_store_before_submit ⟨[], 0⟩ [32, 52, 50, 10] 42 (by decide)).2.2.2.2.2.1⟩

